import Mathlib

/-!
Verification of the ChittyID authentication middleware
(src/chittyid/src/middleware/python.py) against its specification.

The development shallowly embeds the middleware's data model and
operations:

* `JWKSClient` / `getJwks` / `getKey` embed the JWKS key resolver
  (lines 97-130).  The remote endpoint is modelled by an explicit
  argument `remote : Option (List JWK)`; `none` models a transport or
  HTTP-status failure raised by the fetch, `some ks` models a
  successful response whose body is the list under the top-level
  "keys" field.  Base64url decoding of the public key bytes is
  abstracted: a key's material is its `x` string.
* `JTICache` / `checkAndSet` embed the replay-protection cache
  (lines 48-94).  The Redis connection is modelled by an argument
  `redis : Option (List String)`: `none` models the executor call
  raising (server unreachable), `some s` models a reachable server
  whose current key set is `s`.  Wall-clock time is an explicit
  `now : Nat` argument everywhere `time.time()` is read.
* `rcasStep` / `rcasRun` embed `_redis_check_and_set` (lines 87-94)
  split at its two Redis round trips (EXISTS, then conditional
  SETEX), so that interleavings of two concurrent calls can be
  examined.
* `jwtDecode` embeds the behaviour of `jwt.decode` as invoked at
  lines 212-219 (PyJWT 2.x): the allowed-algorithms check and the
  signature check run first, then claim validation in PyJWT's order
  (iat, nbf, exp, iss, aud).  Ed25519 signature verification is
  abstracted: a token carries `signedBy`, the key material under
  which its signature verifies, and verification succeeds exactly
  when the resolved key equals it.
* `verifyToken` embeds `ChittyIDMiddleware.verify_token`
  (lines 197-273) and `dispatch` embeds
  `ChittyIDMiddleware.dispatch` (lines 159-195).  The result
  records, besides the outcome and the updated state, how many
  `get_key` invocations and how many endpoint fetches the call
  performed, so ordering claims about key lookup can be stated.
-/

instance (ε α : Type) [DecidableEq ε] [DecidableEq α] : DecidableEq (Except ε α) :=
  fun x y =>
  match x, y with
  | .ok a, .ok b =>
    if h : a = b then .isTrue (by rw [h]) else .isFalse (by intro he; cases he; exact h rfl)
  | .error a, .error b =>
    if h : a = b then .isTrue (by rw [h]) else .isFalse (by intro he; cases he; exact h rfl)
  | .ok _, .error _ => .isFalse (by intro he; cases he)
  | .error _, .ok _ => .isFalse (by intro he; cases he)

/-- One entry of the JWKS document: key id, declared algorithm, and the
base64url public key material (the "x" field), absent when the entry
lacks it. -/
structure JWK where
  kid : String
  alg : String
  x : Option String
deriving DecidableEq, Repr

/-- State of `JWKSClient` (lines 100-104): configured cache TTL, the
cached document (`none` models the initial empty, falsy `_cache`
dictionary; `some ks` models a cached response with keys list `ks`,
which is truthy even when `ks` is empty), and `_cache_time`. -/
structure JWKSClient where
  cacheTtl : Nat
  cache : Option (List JWK)
  cacheTime : Nat
deriving DecidableEq, Repr

/-- Embeds `JWKSClient.get_jwks` (lines 106-117).  Returns the served
keys list (or a fetch error), the updated client state, and the number
of endpoint fetches performed (0 or 1).  On fetch failure the cache
and timestamp are unchanged, since in the source the exception
propagates before the assignments. -/
def getJwks (c : JWKSClient) (now : Nat) (remote : Option (List JWK)) :
    Except Unit (List JWK) × JWKSClient × Nat :=
  if now - c.cacheTime < c.cacheTtl ∧ c.cache.isSome then
    (.ok (c.cache.getD []), c, 0)
  else
    match remote with
    | some ks => (.ok ks, ⟨c.cacheTtl, some ks, now⟩, 1)
    | none => (.error (), c, 1)

/-- Embeds the loop of `JWKSClient.get_key` (lines 122-130): the first
entry whose kid matches, whose declared algorithm is EdDSA and whose
"x" field is truthy yields its key material; a matching entry with a
falsy "x" is skipped and the scan continues. -/
def findEdKey : List JWK → String → Option String
  | [], _ => none
  | k :: rest, kid =>
    if k.kid = kid ∧ k.alg = "EdDSA" then
      match k.x with
      | some x => if x = "" then findEdKey rest kid else some x
      | none => findEdKey rest kid
    else findEdKey rest kid

/-- Embeds `JWKSClient.get_key` (lines 119-130): one `get_jwks` call,
then the linear scan.  Returns the resolution outcome (fetch error, or
`ok none` for an unknown kid), the updated client, and the number of
endpoint fetches performed. -/
def getKey (c : JWKSClient) (now : Nat) (remote : Option (List JWK)) (kid : String) :
    Except Unit (Option String) × JWKSClient × Nat :=
  match getJwks c now remote with
  | (.ok ks, c2, n) => (.ok (findEdKey ks kid), c2, n)
  | (.error e, c2, n) => (.error e, c2, n)

/-- State of `JTICache` (lines 51-61): configured TTL, whether
`redis_client` is set, and the in-memory fallback map from jti to
recorded expiry time (insertion front-most; the source dict appends,
which only changes sweep iteration order, not the resulting map). -/
structure JTICache where
  ttl : Nat
  hasRedis : Bool
  memory : List (String × Nat)
deriving DecidableEq, Repr

/-- Membership test `jti in self._memory_cache` (line 76). -/
def memLookup (m : List (String × Nat)) (j : String) : Bool :=
  m.any (fun p => p.1 = j)

/-- The Redis key built at line 89. -/
def jtiKey (jti : String) : String :=
  "chittyid:jti:" ++ jti

/-- The EXISTS round trip (line 90); the store is the set of present
keys. -/
def redisExists (s : List String) (k : String) : Bool :=
  s.contains k

/-- The SETEX round trip (line 92); the value and the Redis-side TTL
are not modelled beyond key presence. -/
def redisSetex (s : List String) (k : String) : List String :=
  k :: s

/-- Embeds `_redis_check_and_set` (lines 87-94) run without
interference: EXISTS, then SETEX only when absent. -/
def redisCheckAndSet (s : List String) (jti : String) : Bool × List String :=
  if redisExists s (jtiKey jti) then (false, s)
  else (true, redisSetex s (jtiKey jti))

/-- Embeds the in-memory path of `JTICache.check_and_set`
(lines 74-85): membership test first; on a new jti, insert with expiry
`now + ttl`, then sweep entries whose recorded expiry is below `now`. -/
def memCheckAndSet (c : JTICache) (jti : String) (now : Nat) : Bool × JTICache :=
  if memLookup c.memory jti then (false, c)
  else
    (true, ⟨c.ttl, c.hasRedis,
      ((jti, now + c.ttl) :: c.memory).filter (fun p => ¬ (p.2 < now))⟩)

/-- Embeds `JTICache.check_and_set` (lines 63-85).  When a Redis client
is configured and the executor round trip succeeds (`redis = some s`)
the Redis result is returned; when the round trip raises
(`redis = none`), or when no client is configured, control falls
through to the in-memory path.  Returns the admission verdict, the
updated cache, and the updated Redis store. -/
def checkAndSet (c : JTICache) (jti : String) (now : Nat)
    (redis : Option (List String)) : Bool × JTICache × Option (List String) :=
  if c.hasRedis then
    match redis with
    | some s =>
      let r := redisCheckAndSet s jti
      (r.1, c, some r.2)
    | none =>
      let r := memCheckAndSet c jti now
      (r.1, r.2, none)
  else
    let r := memCheckAndSet c jti now
    (r.1, r.2, redis)

/-- Program counter of one `_redis_check_and_set` call, split at its
two Redis round trips: before the EXISTS read, after it (remembering
what was observed), and finished with a return value. -/
inductive RCASPc where
  | start : RCASPc
  | afterRead : Bool → RCASPc
  | done : Bool → RCASPc
deriving DecidableEq, Repr

/-- One atomic step of a `_redis_check_and_set` call against the
shared store: the EXISTS read, or the conditional SETEX write plus
return. -/
def rcasStep (jti : String) (pc : RCASPc) (s : List String) : RCASPc × List String :=
  match pc with
  | .start => (.afterRead (redisExists s (jtiKey jti)), s)
  | .afterRead ex =>
    if ex then (.done false, s) else (.done true, redisSetex s (jtiKey jti))
  | .done r => (.done r, s)

/-- Runs two concurrent `_redis_check_and_set` calls for the same jti
under a schedule: `true` steps the first call, `false` the second. -/
def rcasRun (jti : String) : List Bool → RCASPc × RCASPc × List String →
    RCASPc × RCASPc × List String
  | [], st => st
  | b :: rest, (p1, p2, s) =>
    if b then
      let r := rcasStep jti p1 s
      rcasRun jti rest (r.1, p2, r.2)
    else
      let r := rcasStep jti p2 s
      rcasRun jti rest (p1, r.1, r.2)

/-- Sanity: a call run to completion without interference agrees with
the sequential `redisCheckAndSet`. -/
theorem rcasRun_seq_eq (s : List String) (j : String) :
    rcasRun j [true, true] (.start, .start, s)
      = (.done (redisCheckAndSet s j).1, .start, (redisCheckAndSet s j).2) := by
  by_cases h : redisExists s (jtiKey j) <;>
    simp [rcasRun, rcasStep, redisCheckAndSet, h]

/-- The claims of a ChittyID token (dataclass `ChittyIDTokenClaims`,
lines 23-45).  `aud` is modelled as a list: a JSON string audience is
the singleton list, an absent or empty claim the empty list (both are
falsy in the source's library checks). -/
structure Payload where
  iss : String
  sub : String
  aud : List String
  exp : Nat
  iat : Nat
  jti : String
  lvl : Int
  nbf : Option Nat
  org : Option String
  tenant : Option String
  roles : Option (List String)
  scope : Option String
  mcp_server_id : Option String
  permitted_tools : Option (List String)
  rate_tier : Option String
deriving DecidableEq, Repr

/-- The `scopes` property (lines 42-45): empty when the scope string is
absent or empty, otherwise the whitespace-split tokens with empties
dropped. -/
def scopesOf (p : Payload) : List String :=
  match p.scope with
  | none => []
  | some s => (s.split Char.isWhitespace).filter (fun t => t ≠ "")

/-- The token envelope header as read by `jwt.get_unverified_header`:
the declared algorithm and the optional key id. -/
structure TokenHeader where
  alg : String
  kid : Option String
deriving DecidableEq, Repr

/-- A structurally well-formed token.  Ed25519 verification is
abstracted: `signedBy` is the key material under which the signature
verifies (`none` when the signature verifies under no key), and the
cryptographic check succeeds exactly when the resolved key equals it. -/
structure Token where
  header : TokenHeader
  payload : Payload
  signedBy : Option String
deriving DecidableEq, Repr

/-- Errors raised by `jwt.decode`; all are `InvalidTokenError`
subclasses, and `expiredSignature` is the one caught separately at
line 220. -/
inductive JwtError where
  | invalidAlgorithm : JwtError
  | invalidSignature : JwtError
  | immatureSignature : JwtError
  | expiredSignature : JwtError
  | invalidIssuer : JwtError
  | missingRequiredClaim : JwtError
  | invalidAudience : JwtError
deriving DecidableEq, Repr

/-- PyJWT nbf validation: passes when the claim is absent or not in
the future. -/
def nbfOk (nbf : Option Nat) (now : Nat) : Bool :=
  match nbf with
  | some t => t ≤ now
  | none => true

/-- PyJWT audience validation as configured at line 217: with no
configured audience a truthy aud claim is rejected; with a configured
audience the claim must be present and contain it. -/
def audOk (audience : Option String) (aud : List String) : Bool :=
  match audience with
  | none => aud.isEmpty
  | some a => ¬ aud.isEmpty ∧ a ∈ aud

/-- The error PyJWT reports for a failed audience validation:
`MissingRequiredClaimError` when an audience is configured but the
token carries none, `InvalidAudienceError` otherwise. -/
def audFail (audience : Option String) (aud : List String) : JwtError :=
  match audience with
  | some _ => if aud.isEmpty then .missingRequiredClaim else .invalidAudience
  | none => .invalidAudience

/-- Embeds `jwt.decode` as invoked at lines 212-219 (PyJWT 2.x,
zero leeway): the declared algorithm must be in the pinned list
(here exactly EdDSA), then the signature is verified, then claims are
validated in PyJWT's order — nbf, exp (strict: `exp ≤ now` is
expired), issuer, audience. -/
def jwtDecode (tok : Token) (key : String) (issuer : String)
    (audience : Option String) (now : Nat) : Except JwtError Payload :=
  if tok.header.alg ≠ "EdDSA" then .error .invalidAlgorithm
  else if tok.signedBy ≠ some key then .error .invalidSignature
  else if ¬ nbfOk tok.payload.nbf now then .error .immatureSignature
  else if tok.payload.exp ≤ now then .error .expiredSignature
  else if tok.payload.iss ≠ issuer then .error .invalidIssuer
  else if ¬ audOk audience tok.payload.aud then .error (audFail audience tok.payload.aud)
  else .ok tok.payload

/-- Configuration of `ChittyIDMiddleware` (lines 136-157) relevant to
verification. -/
structure Middleware where
  issuer : String
  audience : Option String
  requiredScopes : List String
  minTrustLevel : Int
  skipPaths : List String
deriving DecidableEq, Repr

/-- The distinct failure exits of `verify_token`. -/
inductive VerifyErr where
  | missingKid : VerifyErr
  | keyFetchFailure : VerifyErr
  | unknownKey : VerifyErr
  | malformed : JwtError → VerifyErr
  | expired : VerifyErr
  | replayDetected : VerifyErr
  | insufficientTrustLevel : VerifyErr
  | insufficientScope : VerifyErr
deriving DecidableEq, Repr

/-- Outcome of one `verify_token` call: the result, the updated
resolver and replay-cache state, the updated Redis store, and how many
`get_key` invocations (`keyLookups`) and endpoint fetches (`fetches`)
the call performed. -/
structure VerifyResult where
  result : Except VerifyErr Payload
  jwks : JWKSClient
  cache : JTICache
  redisOut : Option (List String)
  keyLookups : Nat
  fetches : Nat
deriving DecidableEq, Repr

/-- The scope check condition of lines 258-261: some required scopes
are configured and at least one is missing from the token's scopes. -/
def scopesMissing (m : Middleware) (p : Payload) : Bool :=
  ¬ m.requiredScopes.isEmpty ∧
    ¬ (m.requiredScopes.filter (fun s => ¬ (scopesOf p).contains s)).isEmpty

/-- The replay-admission and policy tail of `verify_token`
(lines 233-273): mark the jti, then the trust-level check, then the
scope check. -/
def replayAndPolicy (m : Middleware) (jc : JWKSClient) (cache : JTICache)
    (redis : Option (List String)) (now : Nat) (p : Payload) (n : Nat) :
    VerifyResult :=
  match checkAndSet cache p.jti now redis with
  | (false, c2, r2) => ⟨.error .replayDetected, jc, c2, r2, 1, n⟩
  | (true, c2, r2) =>
    if p.lvl < m.minTrustLevel then
      ⟨.error .insufficientTrustLevel, jc, c2, r2, 1, n⟩
    else if scopesMissing m p then
      ⟨.error .insufficientScope, jc, c2, r2, 1, n⟩
    else
      ⟨.ok p, jc, c2, r2, 1, n⟩

/-- Embeds `ChittyIDMiddleware.verify_token` (lines 197-273): read the
kid from the unverified header, resolve the key, run `jwt.decode`
(distinguishing the expired case as at lines 220-227), then replay
admission and the policy checks. -/
def verifyToken (m : Middleware) (jc : JWKSClient) (cache : JTICache)
    (remote : Option (List JWK)) (redis : Option (List String)) (now : Nat)
    (tok : Token) : VerifyResult :=
  match tok.header.kid with
  | none => ⟨.error .missingKid, jc, cache, redis, 0, 0⟩
  | some kid =>
    match getKey jc now remote kid with
    | (.error _, jc2, n) => ⟨.error .keyFetchFailure, jc2, cache, redis, 1, n⟩
    | (.ok none, jc2, n) => ⟨.error .unknownKey, jc2, cache, redis, 1, n⟩
    | (.ok (some key), jc2, n) =>
      match jwtDecode tok key m.issuer m.audience now with
      | .error .expiredSignature => ⟨.error .expired, jc2, cache, redis, 1, n⟩
      | .error e => ⟨.error (.malformed e), jc2, cache, redis, 1, n⟩
      | .ok p => replayAndPolicy m jc2 cache redis now p n

/-- How each `verify_token` failure is raised in Python: four exits
raise `HTTPException` with an explicit category (lines 220-227,
236-242, 245-255, 261-271); the rest raise `ValueError`
(lines 203, 208, 229) or let the HTTP-client error propagate
(lines 112-114). -/
inductive PyExc where
  | httpException : Nat → String → PyExc
  | valueError : PyExc
  | httpxError : PyExc
deriving DecidableEq, Repr

/-- The exception each `VerifyErr` surfaces as. -/
def verifyRaises : VerifyErr → PyExc
  | .expired => .httpException 401 "token_expired"
  | .replayDetected => .httpException 401 "invalid_token"
  | .insufficientTrustLevel => .httpException 403 "insufficient_trust_level"
  | .insufficientScope => .httpException 403 "insufficient_scope"
  | .missingKid => .valueError
  | .unknownKey => .valueError
  | .keyFetchFailure => .httpxError
  | .malformed _ => .valueError

/-- Outcome of `dispatch`: the request proceeds (with the verified
claims attached, or none on a skipped path), or is rejected with a
status and category. -/
inductive Outcome where
  | passthrough : Option Payload → Outcome
  | reject : Nat → String → Outcome
deriving DecidableEq, Repr

/-- The literal header tag checked at line 165. -/
def bearerTag : String :=
  "Bearer "

/-- The case-sensitive startswith check of line 165, on the underlying
character sequences. -/
def strStartsWith (s t : String) : Bool :=
  t.data.isPrefixOf s.data

/-- Embeds `ChittyIDMiddleware.dispatch` (lines 159-195): skip-path
bypass by exact match; absent, empty or wrongly tagged Authorization
header rejects as unauthorized; then `verify_token` runs on the
stripped token (modelled by `tok`, the parse of the header remainder)
and `HTTPException`s are re-raised while any other exception is
reported as invalid_token. -/
def dispatch (m : Middleware) (jc : JWKSClient) (cache : JTICache)
    (remote : Option (List JWK)) (redis : Option (List String)) (now : Nat)
    (path : String) (authHeader : Option String) (tok : Token) : Outcome :=
  if path ∈ m.skipPaths then .passthrough none
  else
    match authHeader with
    | none => .reject 401 "unauthorized"
    | some h =>
      if h = "" ∨ ¬ strStartsWith h bearerTag then .reject 401 "unauthorized"
      else
        match (verifyToken m jc cache remote redis now tok).result with
        | .ok p => .passthrough (some p)
        | .error e =>
          match verifyRaises e with
          | .httpException s cat => .reject s cat
          | .valueError => .reject 401 "invalid_token"
          | .httpxError => .reject 401 "invalid_token"

/-- A registry key used by the concrete scenarios. -/
def baseJwk : JWK :=
  ⟨"k1", "EdDSA", some "XKEY"⟩

/-- A one-key JWKS document. -/
def baseKeys : List JWK :=
  [baseJwk]

/-- A resolver whose cache holds `baseKeys`, fetched at time 0. -/
def baseJc : JWKSClient :=
  ⟨3600, some baseKeys, 0⟩

/-- Claims of a well-formed token: issued by the expected issuer, no
audience, expiry 1000, trust level 5, no scope string. -/
def basePayload : Payload :=
  ⟨"https://registry.chitty.cc", "sub1", [], 1000, 0, "jti1", 5,
   none, none, none, none, none, none, none, none⟩

/-- A token signed under `baseJwk`'s material, declaring EdDSA and
kid k1. -/
def baseTok : Token :=
  ⟨⟨"EdDSA", some "k1"⟩, basePayload, some "XKEY"⟩

/-- A middleware with the default issuer, no audience, no required
scopes, minimum trust level 1. -/
def baseMw : Middleware :=
  ⟨"https://registry.chitty.cc", none, [], 1, []⟩

/-- A replay cache with no Redis client and empty memory. -/
def memCache : JTICache :=
  ⟨3600, false, []⟩

example :
    (verifyToken baseMw baseJc memCache (some baseKeys) none 5 baseTok).result
      = .ok basePayload := by
  decide

example :
    (verifyToken baseMw baseJc memCache (some baseKeys) none 5 baseTok).cache.memory
      = [("jti1", 3605)] := by
  decide

/-- When the pre-replay pipeline stages all pass — kid present, key
resolved, declared algorithm EdDSA, signature valid under the resolved
key, nbf and exp windows satisfied, issuer and audience matching —
`verify_token` reduces to its replay-admission and policy tail. -/
theorem verify_prereplay (m : Middleware) (jc jc2 : JWKSClient) (cache : JTICache)
    (remote : Option (List JWK)) (redis : Option (List String)) (now : Nat)
    (tok : Token) (k key : String) (n : Nat)
    (hkid : tok.header.kid = some k)
    (hkey : getKey jc now remote k = (.ok (some key), jc2, n))
    (halg : tok.header.alg = "EdDSA")
    (hsig : tok.signedBy = some key)
    (hnbf : nbfOk tok.payload.nbf now = true)
    (hexp : now < tok.payload.exp)
    (hiss : tok.payload.iss = m.issuer)
    (haud : audOk m.audience tok.payload.aud = true) :
    verifyToken m jc cache remote redis now tok
      = replayAndPolicy m jc2 cache redis now tok.payload n := by
  have hexp2 : ¬ (tok.payload.exp ≤ now) := by omega
  simp [verifyToken, hkid, hkey, jwtDecode, halg, hsig, hnbf, hexp2, hiss, haud]

/-- A successful `jwt.decode` returns exactly the token's payload. -/
theorem jwtDecode_ok (tok : Token) (key issuer : String) (audience : Option String)
    (now : Nat) (q : Payload) (h : jwtDecode tok key issuer audience now = .ok q) :
    q = tok.payload := by
  unfold jwtDecode at h
  repeat' split at h
  all_goals simp_all

/-- A successful pass through the replay-and-policy tail presupposes a
fresh jti admission and returns the payload it was given. -/
theorem replayAndPolicy_ok (m : Middleware) (jc : JWKSClient) (cache : JTICache)
    (redis : Option (List String)) (now : Nat) (p : Payload) (n : Nat) (q : Payload)
    (h : (replayAndPolicy m jc cache redis now p n).result = .ok q) :
    (checkAndSet cache p.jti now redis).1 = true ∧ q = p := by
  unfold replayAndPolicy at h
  split at h
  next heq => simp_all
  next heq =>
    refine ⟨by rw [heq], ?_⟩
    by_cases h1 : p.lvl < m.minTrustLevel
    · simp [h1] at h
    · by_cases h2 : scopesMissing m p = true
      · simp [h1, h2] at h
      · simp [h1, h2] at h
        exact h.symm

/-- The replay-and-policy tail always returns the replay cache and
Redis store produced by its admission call, and leaves the resolver
untouched. -/
theorem replayAndPolicy_state (m : Middleware) (jc : JWKSClient) (cache : JTICache)
    (redis : Option (List String)) (now : Nat) (p : Payload) (n : Nat) :
    (replayAndPolicy m jc cache redis now p n).cache
        = (checkAndSet cache p.jti now redis).2.1 ∧
    (replayAndPolicy m jc cache redis now p n).redisOut
        = (checkAndSet cache p.jti now redis).2.2 := by
  rcases hcs : checkAndSet cache p.jti now redis with ⟨b, c2, r2⟩
  unfold replayAndPolicy
  rw [hcs]
  cases b
  · exact ⟨rfl, rfl⟩
  · refine ⟨?_, ?_⟩ <;> (split_ifs <;> rfl)

/-- A successful `verify_token` call presupposes a fresh jti admission
for the token's jti, hands back exactly the store states that
admission produced, and returns the token's payload. -/
theorem verify_ok_admits (m : Middleware) (jc : JWKSClient) (cache : JTICache)
    (remote : Option (List JWK)) (redis : Option (List String)) (now : Nat)
    (tok : Token) (p : Payload)
    (h : (verifyToken m jc cache remote redis now tok).result = .ok p) :
    checkAndSet cache tok.payload.jti now redis
      = (true, (verifyToken m jc cache remote redis now tok).cache,
         (verifyToken m jc cache remote redis now tok).redisOut)
      ∧ p = tok.payload := by
  rcases hv : verifyToken m jc cache remote redis now tok with ⟨res, jw, ca, ro, kl, fe⟩
  rw [hv] at h
  simp only at h ⊢
  unfold verifyToken at hv
  split at hv
  · simp_all
  · rename_i kid0 hkid0
    split at hv
    · simp_all
    · simp_all
    · rename_i keyM jcM nM heqk
      split at hv
      · simp_all
      · simp_all
      · rename_i q heqd
        have hq := jwtDecode_ok _ _ _ _ _ _ heqd
        subst hq
        have hres := congrArg VerifyResult.result hv
        have hsc := congrArg VerifyResult.cache hv
        have hsr := congrArg VerifyResult.redisOut hv
        simp only at hres hsc hsr
        rw [h] at hres
        obtain ⟨h1, h2⟩ := replayAndPolicy_ok m jcM cache redis now tok.payload nM p hres
        obtain ⟨hs1, hs2⟩ := replayAndPolicy_state m jcM cache redis now tok.payload nM
        refine ⟨?_, h2⟩
        rw [hs1] at hsc
        rw [hs2] at hsr
        rcases hcs : checkAndSet cache tok.payload.jti now redis with ⟨b, c2, r2⟩
        rw [hcs] at h1 hsc hsr
        simp_all

/-- A policy rejection from `verify_token` also presupposes a fresh
jti admission — the jti is marked consumed before the trust-level and
scope checks run — and hands back the store states that admission
produced. -/
theorem verify_policy_err_admits (m : Middleware) (jc : JWKSClient) (cache : JTICache)
    (remote : Option (List JWK)) (redis : Option (List String)) (now : Nat)
    (tok : Token)
    (h : (verifyToken m jc cache remote redis now tok).result
           = .error .insufficientTrustLevel
       ∨ (verifyToken m jc cache remote redis now tok).result
           = .error .insufficientScope) :
    checkAndSet cache tok.payload.jti now redis
      = (true, (verifyToken m jc cache remote redis now tok).cache,
         (verifyToken m jc cache remote redis now tok).redisOut) := by
  rcases hv : verifyToken m jc cache remote redis now tok with ⟨res, jw, ca, ro, kl, fe⟩
  rw [hv] at h
  simp only at h ⊢
  unfold verifyToken at hv
  split at hv
  · rcases h with h | h <;> simp_all
  · rename_i kid0 hkid0
    split at hv
    · rcases h with h | h <;> simp_all
    · rcases h with h | h <;> simp_all
    · rename_i keyM jcM nM heqk
      split at hv
      · rcases h with h | h <;> simp_all
      · rcases h with h | h <;> simp_all
      · rename_i q heqd
        have hq := jwtDecode_ok _ _ _ _ _ _ heqd
        subst hq
        have hres := congrArg VerifyResult.result hv
        have hsc := congrArg VerifyResult.cache hv
        have hsr := congrArg VerifyResult.redisOut hv
        simp only at hres hsc hsr
        obtain ⟨hs1, hs2⟩ := replayAndPolicy_state m jcM cache redis now tok.payload nM
        rw [hs1] at hsc
        rw [hs2] at hsr
        rcases hcs : checkAndSet cache tok.payload.jti now redis with ⟨b, c2, r2⟩
        rw [hcs] at hsc hsr
        have hb : b = true := by
          by_contra hb
          have hb' : b = false := by
            cases b
            · rfl
            · exact absurd rfl hb
          have hrr : (replayAndPolicy m jcM cache redis now tok.payload nM).result
              = .error .replayDetected := by
            unfold replayAndPolicy
            rw [hcs, hb']
          rw [hres] at hrr
          rcases h with h | h <;> simp_all
        simp_all

/-- After a successful in-memory admission the jti is present in the
memory map. -/
theorem memCheckAndSet_marks (c : JTICache) (j : String) (now : Nat)
    (h : (memCheckAndSet c j now).1 = true) :
    memLookup (memCheckAndSet c j now).2.memory j = true := by
  unfold memCheckAndSet at h ⊢
  split at h
  · simp_all
  · split
    next hcontra => simp_all
    next =>
      simp only [memLookup, List.any_eq_true]
      refine ⟨(j, now + c.ttl), ?_, by simp⟩
      rw [List.mem_filter]
      refine ⟨List.mem_cons_self _ _, ?_⟩
      simp only [decide_eq_true_eq]
      omega

/-- The in-memory admission never changes which store variant is
configured. -/
theorem memCheckAndSet_hasRedis (c : JTICache) (j : String) (now : Nat) :
    (memCheckAndSet c j now).2.hasRedis = c.hasRedis := by
  unfold memCheckAndSet
  split <;> rfl

/-- Once an admission has returned true, re-admitting the same jti
against the resulting state returns false, provided the same store
variant serves both calls: either no Redis client is configured, or
the Redis round trip succeeded on the first call and the second call
is served the store that call produced. -/
theorem checkAndSet_second_false (c c1 : JTICache) (j : String) (now now2 : Nat)
    (r r1 : Option (List String))
    (h : checkAndSet c j now r = (true, c1, r1))
    (hcons : c.hasRedis = true → r.isSome) :
    (checkAndSet c1 j now2 r1).1 = false := by
  by_cases hr : c.hasRedis = true
  · obtain ⟨s, rfl⟩ := Option.isSome_iff_exists.mp (hcons hr)
    by_cases he : redisExists s (jtiKey j) = true
    · simp [checkAndSet, redisCheckAndSet, hr, he] at h
    · simp [checkAndSet, redisCheckAndSet, hr, he] at h
      obtain ⟨hc1, hr1⟩ := h
      subst hc1
      subst hr1
      simp [checkAndSet, redisCheckAndSet, redisExists, redisSetex, hr]
  · have hr' : c.hasRedis = false := by simpa using hr
    simp [checkAndSet, hr'] at h
    obtain ⟨h1, h2, h3⟩ := h
    have hm := memCheckAndSet_marks c j now h1
    have hc1r : c1.hasRedis = false := by
      rw [← h2, memCheckAndSet_hasRedis]
      exact hr'
    rw [h2] at hm
    simp [checkAndSet, hc1r, memCheckAndSet, hm]

/-- C1: ReplayGuard admission is claimed to be a single atomic
check-and-mark: across the retention window at most one admit call for
an identifier returns true, and of two simultaneous calls against the
shared store exactly one returns true.  The implementation of
`_redis_check_and_set` is an EXISTS read followed by a separate SETEX
write, so under the interleaving in which both calls read before
either writes, both calls return true: the schedule
[call one reads, call two reads, call one writes, call two writes]
on an empty store ends with both calls done true, violating the
at-most-once invariant, whereas the serial schedule admits exactly
one. -/
theorem redis_check_and_set_race :
    ((rcasRun ("j") [true, false, true, false] (.start, .start, [])).1 = .done true ∧
     (rcasRun ("j") [true, false, true, false] (.start, .start, [])).2.1 = .done true) ∧
    ((rcasRun ("j") [true, true, false, false] (.start, .start, [])).1 = .done true ∧
     (rcasRun ("j") [true, true, false, false] (.start, .start, [])).2.1 = .done false) := by
  decide

/-- A second registry key, present at the endpoint but not in
`baseJc`'s cached key set. -/
def otherJwk : JWK :=
  ⟨"k2", "EdDSA", some "YKEY"⟩

/-- The endpoint's current key set for the C4 scenario: both keys. -/
def c4Remote : List JWK :=
  [baseJwk, otherJwk]

/-- C4 counterexample: the claim says a key identifier missing from
the currently cached set still triggers one refresh before UnknownKey
is returned.  With a fresh cache that lacks kid k2, `get_key` performs
zero fetches and returns UnknownKey, even though the endpoint's
current key set (which one refresh would have retrieved) contains
k2. -/
theorem fresh_cache_miss_no_refresh :
    (getKey baseJc 10 (some c4Remote) ("k2")).2.2 = 0 ∧
    (getKey baseJc 10 (some c4Remote) ("k2")).1 = .ok none ∧
    findEdKey c4Remote ("k2") = some ("YKEY") := by
  decide

/-- C4 (amended): when the cache is stale or empty, `get_key` performs
exactly one fetch of the full key set before deciding, a kid absent
after that single refresh yields UnknownKey (no retry loop), and a
transport failure on that single fetch propagates; but a kid missing
from a fresh, non-empty cached set yields UnknownKey with no refresh
(shown by the counterexample). -/
theorem stale_cache_single_fetch (c : JWKSClient) (now : Nat)
    (remote : Option (List JWK)) (kid : String)
    (hstale : ¬ (now - c.cacheTime < c.cacheTtl ∧ c.cache.isSome)) :
    (getKey c now remote kid).2.2 = 1 ∧
    (∀ ks, remote = some ks → findEdKey ks kid = none →
      (getKey c now remote kid).1 = .ok none) ∧
    (remote = none → (getKey c now remote kid).1 = .error ()) := by
  unfold getKey getJwks
  rw [if_neg hstale]
  cases remote with
  | none =>
    refine ⟨rfl, ?_, ?_⟩
    · intro ks hks hfind
      cases hks
    · intro h2
      rfl
  | some ks =>
    refine ⟨rfl, ?_, ?_⟩
    · intro ks2 hks hfind
      injection hks with hks2
      subst hks2
      simp [hfind]
    · intro h2
      cases h2

/-- Witness for C4's amended claim at a concrete stale client. -/
theorem stale_cache_single_fetch_witness :
    (getKey ⟨3600, some baseKeys, 0⟩ 5000 (some baseKeys) ("kX")).2.2 = 1 ∧
    (getKey ⟨3600, some baseKeys, 0⟩ 5000 (some baseKeys) ("kX")).1 = .ok none := by
  have h := stale_cache_single_fetch ⟨3600, some baseKeys, 0⟩ 5000 (some baseKeys) ("kX")
    (by decide)
  exact ⟨h.1, h.2.1 baseKeys rfl (by decide)⟩

/-- C5 counterexample: the claim says no individual admit call ever
falls back from the shared store to the local store by catching an
error raised during that call.  With a Redis client configured
(hasRedis true) and the Redis round trip raising, a single
`check_and_set` call admits through the local in-memory store,
writing the jti into the memory map within that very call. -/
theorem redis_error_falls_back_per_call :
    checkAndSet ⟨3600, true, []⟩ ("j1") 0 none
      = (true, ⟨3600, true, [(("j1"), 3600)]⟩, none) := by
  decide

/-- C5 (amended): the Redis client is chosen once at construction
(whether `redis_url` was given), but the store actually used is decided
per call: whenever the Redis round trip raises during an admit call,
that same call falls back to the local in-memory path and returns its
result. -/
theorem check_and_set_per_call_fallback (c : JTICache) (j : String) (now : Nat)
    (hr : c.hasRedis = true) :
    checkAndSet c j now none
      = ((memCheckAndSet c j now).1, (memCheckAndSet c j now).2, none) := by
  simp [checkAndSet, hr]

/-- Witness for C5's amended claim at a concrete cache. -/
theorem check_and_set_per_call_fallback_witness :
    checkAndSet ⟨60, true, []⟩ ("w5") 7 none
      = ((memCheckAndSet ⟨60, true, []⟩ ("w5") 7).1,
         (memCheckAndSet ⟨60, true, []⟩ ("w5") 7).2, none) :=
  check_and_set_per_call_fallback ⟨60, true, []⟩ ("w5") 7 rfl

/-- An expired token (exp 5) whose signature does not verify under the
resolved key. -/
def expiredBadSigTok : Token :=
  ⟨⟨"EdDSA", some "k1"⟩, { basePayload with exp := 5 }, some "WRONG"⟩

/-- C6 counterexample: the claim says a token with exp at or before
the current time yields Expired regardless of signature validity.  At
time 100 the token below is expired (exp 5 is at or before 100), yet
because its signature is invalid the result is the signature error
(surfacing as invalid_token), not Expired: the library verifies the
signature before validating exp. -/
theorem expired_bad_sig_not_token_expired :
    expiredBadSigTok.payload.exp ≤ 100 ∧
    (verifyToken baseMw baseJc memCache (some baseKeys) none 100 expiredBadSigTok).result
      = .error (.malformed .invalidSignature) ∧
    (verifyToken baseMw baseJc memCache (some baseKeys) none 100 expiredBadSigTok).result
      ≠ .error .expired := by
  decide

/-- C6 (amended): for every token whose kid resolves, whose declared
algorithm is EdDSA, whose signature verifies under the resolved key and
whose nbf is not in the future, exp at or before the current time
yields the Expired error (raised as the token_expired category), with
a strict comparison and no skew tolerance, regardless of issuer,
audience, replay state or policy configuration; when the signature is
invalid the rejection is the signature error instead (shown by the
counterexample). -/
theorem expired_valid_sig_token_expired (m : Middleware) (jc jc2 : JWKSClient)
    (cache : JTICache) (remote : Option (List JWK)) (redis : Option (List String))
    (now : Nat) (tok : Token) (k key : String) (n : Nat)
    (hkid : tok.header.kid = some k)
    (hkey : getKey jc now remote k = (.ok (some key), jc2, n))
    (halg : tok.header.alg = "EdDSA")
    (hsig : tok.signedBy = some key)
    (hnbf : nbfOk tok.payload.nbf now = true)
    (hexp : tok.payload.exp ≤ now) :
    verifyToken m jc cache remote redis now tok
        = ⟨.error .expired, jc2, cache, redis, 1, n⟩ ∧
    verifyRaises .expired = .httpException 401 ("token_expired") := by
  refine ⟨?_, rfl⟩
  simp [verifyToken, hkid, hkey, jwtDecode, halg, hsig, hnbf, hexp]

/-- A token at the expiry boundary (exp equal to the evaluation time)
with a wrong issuer, used to witness strictness and
issuer-independence of the Expired rejection. -/
def boundaryTok : Token :=
  ⟨⟨"EdDSA", some "k1"⟩, { basePayload with iss := "evil", exp := 1000 }, some "XKEY"⟩

/-- Witness for C6's amended claim: at now equal to exp (boundary of
the strict comparison) and with a mismatched issuer, the result is
still Expired. -/
theorem expired_valid_sig_witness :
    verifyToken baseMw baseJc memCache (some baseKeys) none 1000 boundaryTok
        = ⟨.error .expired, baseJc, memCache, none, 1, 0⟩ ∧
    verifyRaises .expired = .httpException 401 ("token_expired") :=
  expired_valid_sig_token_expired baseMw baseJc baseJc memCache (some baseKeys) none
    1000 boundaryTok ("k1") ("XKEY") 0 rfl (by decide) rfl rfl (by decide) (by decide)

/-- A local replay cache holding one entry whose recorded expiry (3)
has already passed. -/
def staleCache : JTICache :=
  ⟨3600, false, [(("a"), 3)]⟩

/-- C10: in the process-local replay store, membership is tested
before expired entries are removed, and the sweep runs only on
admissions of new identifiers: an identifier still present in the map
is rejected (returning false, state unchanged) even when its recorded
expiry has passed, and a stale entry is removed only when some other,
new identifier is admitted. -/
theorem local_store_stale_semantics (c : JTICache) (r : Option (List String))
    (j j2 : String) (e now : Nat) (hr : c.hasRedis = false) :
    (memLookup c.memory j = true → checkAndSet c j now r = (false, c, r)) ∧
    (memLookup c.memory j = false → (j2, e) ∈ c.memory → e < now →
      ¬ ((j2, e) ∈ (checkAndSet c j now r).2.1.memory)) := by
  constructor
  · intro hm
    simp [checkAndSet, hr, memCheckAndSet, hm]
  · intro hm hmem he
    have hmemeq : (checkAndSet c j now r).2.1.memory
        = ((j, now + c.ttl) :: c.memory).filter (fun p => ¬ (p.2 < now)) := by
      simp [checkAndSet, hr, memCheckAndSet, hm]
    rw [hmemeq, List.mem_filter]
    rintro ⟨h1, h2⟩
    simp only [decide_eq_true_eq] at h2
    exact h2 he

/-- Witness for C10 at a concrete stale cache: the stale entry (expiry
3, now 10) still causes rejection with no sweep, and admitting a fresh
identifier removes it. -/
theorem local_store_stale_semantics_witness :
    checkAndSet staleCache ("a") 10 none = (false, staleCache, none) ∧
    ¬ ((("a"), 3) ∈ (checkAndSet staleCache ("b") 10 none).2.1.memory) := by
  refine ⟨?_, ?_⟩
  · exact (local_store_stale_semantics staleCache none ("a") ("x") 0 10 rfl).1 (by decide)
  · exact (local_store_stale_semantics staleCache none ("b") ("a") 3 10 rfl).2
      (by decide) (by decide) (by decide)

/-- A token declaring RS256 whose kid resolves to a registry key. -/
def rs256Tok : Token :=
  ⟨⟨"RS256", some "k1"⟩, basePayload, some "XKEY"⟩

/-- C2 counterexample: the claim says a token declaring an algorithm
other than EdDSA is rejected before any key resolution or key lookup
is attempted.  For a token declaring RS256 with a resolvable kid, the
call performs one key lookup (keyLookups is 1, not 0) before the
algorithm is rejected inside the decode step. -/
theorem alg_rs256_key_lookup_attempted :
    (verifyToken baseMw baseJc memCache (some baseKeys) none 5 rs256Tok).keyLookups = 1 ∧
    (verifyToken baseMw baseJc memCache (some baseKeys) none 5 rs256Tok).result
      = .error (.malformed .invalidAlgorithm) := by
  decide

/-- C2 (amended): a token declaring any algorithm other than EdDSA
never verifies — the verification algorithm is pinned to the EdDSA
list and the token's algorithm field is never trusted to select it —
but the rejection (an InvalidTokenError surfacing as invalid_token)
happens at the decode step, after key resolution: when the kid
resolves, exactly one key lookup has been attempted by then. -/
theorem foreign_alg_rejected_after_key_lookup (m : Middleware) (jc : JWKSClient)
    (cache : JTICache) (remote : Option (List JWK)) (redis : Option (List String))
    (now : Nat) (tok : Token)
    (halg : tok.header.alg ≠ "EdDSA") :
    (∀ p, (verifyToken m jc cache remote redis now tok).result ≠ .ok p) ∧
    (∀ k key jc2 n, tok.header.kid = some k →
      getKey jc now remote k = (.ok (some key), jc2, n) →
      verifyToken m jc cache remote redis now tok
        = ⟨.error (.malformed .invalidAlgorithm), jc2, cache, redis, 1, n⟩) := by
  have hdec : ∀ key, jwtDecode tok key m.issuer m.audience now
      = .error .invalidAlgorithm := by
    intro key
    unfold jwtDecode
    rw [if_pos halg]
  constructor
  · intro p
    unfold verifyToken
    split
    · simp
    · split
      · simp
      · simp
      · rename_i keyM jcM nM heqk
        rw [hdec keyM]
        simp
  · intro k key jc2 n hkid hkey
    simp [verifyToken, hkid, hkey, hdec key]

/-- Witness for C2's amended claim at the RS256 token. -/
theorem foreign_alg_rejected_witness :
    (∀ p, (verifyToken baseMw baseJc memCache (some baseKeys) none 7 rs256Tok).result
        ≠ .ok p) ∧
    verifyToken baseMw baseJc memCache (some baseKeys) none 7 rs256Tok
      = ⟨.error (.malformed .invalidAlgorithm), baseJc, memCache, none, 1, 0⟩ := by
  have h := foreign_alg_rejected_after_key_lookup baseMw baseJc memCache (some baseKeys)
    none 7 rs256Tok (by decide)
  exact ⟨h.1, h.2 ("k1") ("XKEY") baseJc 0 rfl (by decide)⟩

/-- C7: the trust-level check is always evaluated before the scope
check.  First part: for a token that reaches the policy stage (all
verification stages pass and the jti is fresh) with lvl below the
configured minimum, the result is InsufficientTrustLevel — whatever
the required scopes and the token's scopes are.  Second part: for
every configuration and token whatsoever, a trust level below the
minimum makes an InsufficientScope outcome impossible — the scope
check is never the reported failure when trust is insufficient. -/
theorem trust_level_before_scope (m : Middleware) (jc jc2 : JWKSClient)
    (cache : JTICache) (remote : Option (List JWK)) (redis : Option (List String))
    (now : Nat) (tok : Token) (k key : String) (n : Nat)
    (hkid : tok.header.kid = some k)
    (hkey : getKey jc now remote k = (.ok (some key), jc2, n))
    (halg : tok.header.alg = "EdDSA")
    (hsig : tok.signedBy = some key)
    (hnbf : nbfOk tok.payload.nbf now = true)
    (hexp : now < tok.payload.exp)
    (hiss : tok.payload.iss = m.issuer)
    (haud : audOk m.audience tok.payload.aud = true)
    (hfresh : (checkAndSet cache tok.payload.jti now redis).1 = true)
    (hlvl : tok.payload.lvl < m.minTrustLevel) :
    (verifyToken m jc cache remote redis now tok).result
        = .error .insufficientTrustLevel ∧
    (∀ (m2 : Middleware) (jcb : JWKSClient) (cacheb : JTICache)
       (remoteb : Option (List JWK)) (redisb : Option (List String))
       (nowb : Nat) (tokb : Token),
      tokb.payload.lvl < m2.minTrustLevel →
      (verifyToken m2 jcb cacheb remoteb redisb nowb tokb).result
        ≠ .error .insufficientScope) := by
  constructor
  · rw [verify_prereplay m jc jc2 cache remote redis now tok k key n hkid hkey halg
      hsig hnbf hexp hiss haud]
    unfold replayAndPolicy
    rcases hcs : checkAndSet cache tok.payload.jti now redis with ⟨b, c2, r2⟩
    rw [hcs] at hfresh
    simp only at hfresh
    subst hfresh
    simp [hlvl]
  · intro m2 jcb cacheb remoteb redisb nowb tokb hlvl2 hres
    unfold verifyToken at hres
    split at hres
    · simp_all
    · split at hres
      · simp_all
      · simp_all
      · rename_i keyM jcM nM heqk
        split at hres
        · simp_all
        · simp_all
        · rename_i q heqd
          have hq := jwtDecode_ok _ _ _ _ _ _ heqd
          subst hq
          unfold replayAndPolicy at hres
          rcases hcs2 : checkAndSet cacheb tokb.payload.jti nowb redisb with ⟨b2, cc2, rr2⟩
          rw [hcs2] at hres
          cases b2
          · simp at hres
          · simp [hlvl2] at hres

/-- A middleware requiring trust level 2 and one scope. -/
def strictMw : Middleware :=
  ⟨"https://registry.chitty.cc", none, [("mcp:invoke")], 2, []⟩

/-- A token with trust level 1 and no scopes, deficient in both trust
and scopes under `strictMw`. -/
def lowTrustTok : Token :=
  ⟨⟨"EdDSA", some "k1"⟩, { basePayload with lvl := 1 }, some "XKEY"⟩

/-- Witness for C7 at a configuration where the caller lacks both the
trust level and the required scopes: the reported failure is
InsufficientTrustLevel. -/
theorem trust_level_before_scope_witness :
    (verifyToken strictMw baseJc memCache (some baseKeys) none 5 lowTrustTok).result
      = .error .insufficientTrustLevel :=
  (trust_level_before_scope strictMw baseJc baseJc memCache (some baseKeys) none 5
    lowTrustTok ("k1") ("XKEY") 0 rfl (by decide) rfl rfl (by decide) (by decide)
    (by decide) (by decide) (by decide) (by decide)).1

/-- C8: rejection categories at the gateway are deterministic.  For a
request whose path is not exempt: an absent Authorization header, or
one not beginning with the literal case-sensitive tag Bearer-space,
rejects with category unauthorized; and every verification-stage error
(everything except the two policy errors) rejects with category
invalid_token, except Expired, which rejects with the distinct
category token_expired — the key-fetch failure is folded into
invalid_token rather than distinguished. -/
theorem dispatch_rejection_categories (m : Middleware) (jc : JWKSClient)
    (cache : JTICache) (remote : Option (List JWK)) (redis : Option (List String))
    (now : Nat) (path : String) (tok : Token)
    (hpath : path ∉ m.skipPaths) :
    (dispatch m jc cache remote redis now path none tok
        = .reject 401 ("unauthorized")) ∧
    (∀ h, ¬ strStartsWith h bearerTag = true →
      dispatch m jc cache remote redis now path (some h) tok
        = .reject 401 ("unauthorized")) ∧
    (∀ h e, strStartsWith h bearerTag = true →
      (verifyToken m jc cache remote redis now tok).result = .error e →
      e ≠ .insufficientTrustLevel → e ≠ .insufficientScope →
      dispatch m jc cache remote redis now path (some h) tok
        = .reject 401 (if e = .expired then ("token_expired") else ("invalid_token"))) := by
  refine ⟨?_, ?_, ?_⟩
  · simp [dispatch, hpath]
  · intro h hstart
    simp [dispatch, hpath, hstart]
  · intro h e hstart hres hne1 hne2
    have hne : ¬ (h = "") := by
      intro h0
      rw [h0] at hstart
      exact absurd hstart (by decide)
    simp only [dispatch, if_neg hpath]
    rw [if_neg (by intro hd; rcases hd with hd | hd; exact hne hd; exact hd hstart)]
    rw [hres]
    cases e <;> simp_all [verifyRaises]

/-- A token whose kid is absent from the key set, driving an
UnknownKey verification error for the C8 witness. -/
def unknownKidTok : Token :=
  ⟨⟨"EdDSA", some "nope"⟩, basePayload, some "XKEY"⟩

/-- Witness for C8 at concrete requests: a missing header rejects as
unauthorized, a wrongly tagged header (lower-case bearer) rejects as
unauthorized, and an UnknownKey verification failure rejects as
invalid_token. -/
theorem dispatch_rejection_categories_witness :
    dispatch baseMw baseJc memCache (some baseKeys) none 5 ("/x") none baseTok
        = .reject 401 ("unauthorized") ∧
    dispatch baseMw baseJc memCache (some baseKeys) none 5 ("/x")
        (some ("bearer abc")) baseTok = .reject 401 ("unauthorized") ∧
    dispatch baseMw baseJc memCache (some baseKeys) none 5 ("/x")
        (some ("Bearer abc")) unknownKidTok = .reject 401 ("invalid_token") := by
  have h1 := dispatch_rejection_categories baseMw baseJc memCache (some baseKeys) none 5
    ("/x") baseTok (by decide)
  have h2 := dispatch_rejection_categories baseMw baseJc memCache (some baseKeys) none 5
    ("/x") unknownKidTok (by decide)
  refine ⟨h1.1, h1.2.1 ("bearer abc") (by decide), ?_⟩
  have h3 := h2.2.2 ("Bearer abc") .unknownKey (by decide) (by decide)
    (by intro hx; cases hx) (by intro hx; cases hx)
  simpa using h3

/-- The token for the C3 counterexample: expiry 10, fresh jti. -/
def shortLivedTok : Token :=
  ⟨⟨"EdDSA", some "k1"⟩, { basePayload with exp := 10, jti := "jti3" }, some "XKEY"⟩

/-- C3 counterexample: the claim says a second `verify_token` call
with the identical token within the retention window always fails
with ReplayDetected.  With retention 3600, a token of expiry 10 first
verified at time 5 and resubmitted at time 20 — well inside the
retention window — fails with Expired (token_expired), not with
ReplayDetected: the expiry check runs before the replay check. -/
theorem second_verify_expired_not_replay :
    (verifyToken baseMw baseJc memCache (some baseKeys) none 5 shortLivedTok).result
        = .ok shortLivedTok.payload ∧
    ((verifyToken baseMw
        (verifyToken baseMw baseJc memCache (some baseKeys) none 5 shortLivedTok).jwks
        (verifyToken baseMw baseJc memCache (some baseKeys) none 5 shortLivedTok).cache
        (some baseKeys)
        (verifyToken baseMw baseJc memCache (some baseKeys) none 5 shortLivedTok).redisOut
        20 shortLivedTok).result = .error .expired) ∧
    ((verifyToken baseMw
        (verifyToken baseMw baseJc memCache (some baseKeys) none 5 shortLivedTok).jwks
        (verifyToken baseMw baseJc memCache (some baseKeys) none 5 shortLivedTok).cache
        (some baseKeys)
        (verifyToken baseMw baseJc memCache (some baseKeys) none 5 shortLivedTok).redisOut
        20 shortLivedTok).result ≠ .error .replayDetected) := by
  decide

/-- C3 (amended): `verify_token` is consume-once, not idempotent.  A
successful call marks the token's jti consumed as a side effect, and —
provided the same store variant serves both calls — a second call with
the identical token can never succeed again within the retention
window; it fails with ReplayDetected whenever the resubmission still
passes the pre-replay stages (key resolution, algorithm, signature,
time window, issuer, audience); if the token has meanwhile expired the
second failure is Expired instead (shown by the counterexample). -/
theorem verify_consume_once (m : Middleware) (jc jc1 jc2 : JWKSClient)
    (cache cache1 : JTICache) (remote remote2 : Option (List JWK))
    (redis redis1 : Option (List String)) (now now2 : Nat) (tok : Token)
    (k key : String) (kl fe n2 : Nat)
    (hcons : cache.hasRedis = true → redis.isSome)
    (hfirst : verifyToken m jc cache remote redis now tok
        = ⟨.ok tok.payload, jc1, cache1, redis1, kl, fe⟩)
    (hkid : tok.header.kid = some k)
    (hkey2 : getKey jc1 now2 remote2 k = (.ok (some key), jc2, n2))
    (halg : tok.header.alg = "EdDSA")
    (hsig : tok.signedBy = some key)
    (hnbf2 : nbfOk tok.payload.nbf now2 = true)
    (hexp2 : now2 < tok.payload.exp)
    (hiss : tok.payload.iss = m.issuer)
    (haud : audOk m.audience tok.payload.aud = true) :
    (verifyToken m jc1 cache1 remote2 redis1 now2 tok).result
        = .error .replayDetected ∧
    (∀ (now3 : Nat) (remote3 : Option (List JWK)) (p : Payload),
      (verifyToken m jc1 cache1 remote3 redis1 now3 tok).result ≠ .ok p) := by
  have hok : (verifyToken m jc cache remote redis now tok).result = .ok tok.payload := by
    rw [hfirst]
  obtain ⟨hcs, _⟩ := verify_ok_admits m jc cache remote redis now tok tok.payload hok
  rw [hfirst] at hcs
  simp only at hcs
  have hsecond := checkAndSet_second_false cache cache1 tok.payload.jti now now2
    redis redis1 hcs hcons
  constructor
  · rw [verify_prereplay m jc1 jc2 cache1 remote2 redis1 now2 tok k key n2 hkid hkey2
      halg hsig hnbf2 hexp2 hiss haud]
    unfold replayAndPolicy
    rcases hcs2 : checkAndSet cache1 tok.payload.jti now2 redis1 with ⟨b2, cc2, rr2⟩
    rw [hcs2] at hsecond
    simp only at hsecond
    subst hsecond
    rfl
  · intro now3 remote3 p hok3
    obtain ⟨hcs3, _⟩ := verify_ok_admits m jc1 cache1 remote3 redis1 now3 tok p hok3
    have hsecond3 := checkAndSet_second_false cache cache1 tok.payload.jti now now3
      redis redis1 hcs hcons
    rw [hcs3] at hsecond3
    simp at hsecond3

/-- The replay-cache state after `baseTok` was successfully verified
at time 5. -/
def consumedCache : JTICache :=
  ⟨3600, false, [(("jti1"), 3605)]⟩

/-- Witness for C3's amended claim: after a concrete successful
verification at time 5, resubmitting the identical token at time 6
fails with ReplayDetected. -/
theorem verify_consume_once_witness :
    (verifyToken baseMw baseJc consumedCache (some baseKeys) none 6 baseTok).result
        = .error .replayDetected :=
  (verify_consume_once baseMw baseJc baseJc baseJc memCache consumedCache
    (some baseKeys) (some baseKeys) none none 5 6 baseTok ("k1") ("XKEY") 1 0 0
    (by intro hx; cases hx) (by decide) rfl (by decide) rfl rfl (by decide)
    (by decide) (by decide) (by decide)).1

/-- C9: replay admission runs before the trust-level and scope checks
inside `verify_token`, so a token rejected with
InsufficientTrustLevel or InsufficientScope has already had its jti
marked consumed; resubmitting the same token — with the same store
variant serving both calls and all pre-replay stages still passing —
yields ReplayDetected (an invalid_token rejection), not the policy
error: a policy-rejected token can never be retried within the
retention window. -/
theorem policy_reject_consumes_jti (m : Middleware) (jc jc1 jc2 : JWKSClient)
    (cache cache1 : JTICache) (remote remote2 : Option (List JWK))
    (redis redis1 : Option (List String)) (now now2 : Nat) (tok : Token)
    (k key : String) (kl fe n2 : Nat)
    (hcons : cache.hasRedis = true → redis.isSome)
    (hfirst : verifyToken m jc cache remote redis now tok
        = ⟨.error .insufficientTrustLevel, jc1, cache1, redis1, kl, fe⟩
      ∨ verifyToken m jc cache remote redis now tok
        = ⟨.error .insufficientScope, jc1, cache1, redis1, kl, fe⟩)
    (hkid : tok.header.kid = some k)
    (hkey2 : getKey jc1 now2 remote2 k = (.ok (some key), jc2, n2))
    (halg : tok.header.alg = "EdDSA")
    (hsig : tok.signedBy = some key)
    (hnbf2 : nbfOk tok.payload.nbf now2 = true)
    (hexp2 : now2 < tok.payload.exp)
    (hiss : tok.payload.iss = m.issuer)
    (haud : audOk m.audience tok.payload.aud = true) :
    (verifyToken m jc1 cache1 remote2 redis1 now2 tok).result
        = .error .replayDetected := by
  have herr : (verifyToken m jc cache remote redis now tok).result
        = .error .insufficientTrustLevel
      ∨ (verifyToken m jc cache remote redis now tok).result
        = .error .insufficientScope := by
    rcases hfirst with hf | hf <;> rw [hf]
    · exact .inl rfl
    · exact .inr rfl
  have hcs := verify_policy_err_admits m jc cache remote redis now tok herr
  have hstate : (verifyToken m jc cache remote redis now tok).cache = cache1 ∧
      (verifyToken m jc cache remote redis now tok).redisOut = redis1 := by
    rcases hfirst with hf | hf <;> rw [hf] <;> exact ⟨rfl, rfl⟩
  rw [hstate.1, hstate.2] at hcs
  have hsecond := checkAndSet_second_false cache cache1 tok.payload.jti now now2
    redis redis1 hcs hcons
  rw [verify_prereplay m jc1 jc2 cache1 remote2 redis1 now2 tok k key n2 hkid hkey2
    halg hsig hnbf2 hexp2 hiss haud]
  unfold replayAndPolicy
  rcases hcs2 : checkAndSet cache1 tok.payload.jti now2 redis1 with ⟨b2, cc2, rr2⟩
  rw [hcs2] at hsecond
  simp only at hsecond
  subst hsecond
  rfl

/-- Witness for C9: under `strictMw` the low-trust token is rejected
with InsufficientTrustLevel at time 5, its jti is consumed by that
call, and resubmitting it at time 6 yields ReplayDetected. -/
theorem policy_reject_consumes_jti_witness :
    (verifyToken strictMw baseJc ⟨3600, false, [(("jti1"), 3605)]⟩ (some baseKeys)
        none 6 lowTrustTok).result = .error .replayDetected :=
  policy_reject_consumes_jti strictMw baseJc baseJc baseJc memCache
    ⟨3600, false, [(("jti1"), 3605)]⟩ (some baseKeys) (some baseKeys) none none 5 6
    lowTrustTok ("k1") ("XKEY") 1 0 0 (by intro hx; cases hx)
    (.inl (by decide)) rfl (by decide) rfl rfl (by decide) (by decide) (by decide)
    (by decide)
